import Mathlib

/-!
Verification of the crypto-flow-scanner core (gap detector, parameter
resolver, confluence engine, backtest simulator) against its design
specification.  Definitions are shallow embeddings of the Python source
(src/src/patterns/base.py, src/src/patterns/fvg.py,
src/src/config/parameters.py, src/src/analysis/confluence.py,
src/src/backtesting/engine.py).

Numeric model: candle data and exact price levels are rationals.  Values
that can become IEEE NaN in the source (the ATR series before its warm-up,
and everything downstream of it) are modelled by `PFloat`: either NaN or an
exact rational.  Arithmetic propagates NaN; ordered comparisons involving
NaN are false, exactly as in IEEE / Python; Python truthiness of a float
(`if atr:`) is true for NaN and for any non-zero value.
-/

namespace CFS

/-- A Python float that is either NaN or an exact rational value.
(Infinities never arise on the paths verified here.) -/
inductive PFloat where
  | nan : PFloat
  | val : ℚ → PFloat
deriving DecidableEq, Repr

namespace PFloat

def add : PFloat → PFloat → PFloat
  | val a, val b => val (a + b)
  | _, _ => nan

def sub : PFloat → PFloat → PFloat
  | val a, val b => val (a - b)
  | _, _ => nan

def mul : PFloat → PFloat → PFloat
  | val a, val b => val (a * b)
  | _, _ => nan

/-- Division.  A zero divisor raises `ZeroDivisionError` on plain Python
floats; no theorem below depends on that point, and we map it to NaN
(hypotheses exclude it wherever a claim's conclusion passes through it). -/
def div : PFloat → PFloat → PFloat
  | val a, val b => if b = 0 then nan else val (a / b)
  | _, _ => nan

def abs : PFloat → PFloat
  | val a => val |a|
  | nan => nan

/-- Python `x <= y` on floats: false when either side is NaN. -/
def ble : PFloat → PFloat → Bool
  | val a, val b => decide (a ≤ b)
  | _, _ => false

/-- Python `x < y` on floats: false when either side is NaN. -/
def blt : PFloat → PFloat → Bool
  | val a, val b => decide (a < b)
  | _, _ => false

/-- Python truthiness of a float: `bool(nan) = True`, `bool(0.0) = False`. -/
def pyTruthy : PFloat → Bool
  | nan => true
  | val q => decide (q ≠ 0)

/-- Python `min(a, b)`: returns `b` if `b < a` else `a` (NaN comparisons
are false, so `min(a, nan) = a`). -/
def pymin (a b : PFloat) : PFloat :=
  if blt b a then b else a

instance : Add PFloat := ⟨add⟩
instance : Sub PFloat := ⟨sub⟩
instance : Mul PFloat := ⟨mul⟩
instance : Div PFloat := ⟨div⟩

end PFloat

/-- One OHLCV candle (src/src/data/models.py `Candle`, as consumed through
a pandas DataFrame indexed by timestamp).  `timestamp` is POSIX seconds. -/
structure Candle where
  open_ : ℚ
  high : ℚ
  low : ℚ
  close : ℚ
  volume : ℚ
  timestamp : ℤ
deriving DecidableEq, Repr

/-- A detected pattern (src/src/data/models.py `Pattern`).  Fields that can
carry NaN in the source (stop loss / take profit, which flow through the
ATR series) are `PFloat`; the gap levels and midpoint entry are exact. -/
structure Pattern where
  id : ℕ := 0
  symbol : String
  timeframe : String
  pattern_type : String
  direction : String
  start_timestamp : ℤ
  entry_price : ℚ
  stop_loss : PFloat
  take_profit : PFloat
  gap_top : ℚ
  gap_bottom : ℚ
  gap_size_percent : ℚ
  is_valid : Bool
  confluence_count : ℕ := 1
deriving DecidableEq, Repr

/-! ## Parameter resolver (src/src/config/parameters.py) -/

structure RiskParameters where
  max_risk_percent : ℚ
  stop_loss_atr_multiplier : ℚ
  take_profit_rr_ratio : ℚ
  position_size_percent : ℚ
deriving DecidableEq, Repr

structure FVGParameters where
  min_gap_percent : ℚ
  max_age_candles : ℤ
  volume_confirmation : Bool
deriving DecidableEq, Repr

structure TradingParameters where
  risk : RiskParameters
  fvg : FVGParameters
deriving DecidableEq, Repr

/-- A partial override of the `risk` group: only the keys present in the
JSON dict are set (Python `dict.update` semantics). -/
structure RiskOverride where
  max_risk_percent : Option ℚ := none
  stop_loss_atr_multiplier : Option ℚ := none
  take_profit_rr_ratio : Option ℚ := none
  position_size_percent : Option ℚ := none
deriving DecidableEq, Repr

/-- A partial override of the `fvg` group. -/
structure FVGOverride where
  min_gap_percent : Option ℚ := none
  max_age_candles : Option ℤ := none
  volume_confirmation : Option Bool := none
deriving DecidableEq, Repr

/-- One override document `{risk: {...}, fvg: {...}}`; each group key is
itself optional. -/
structure OverrideDoc where
  risk : Option RiskOverride := none
  fvg : Option FVGOverride := none
deriving DecidableEq, Repr

/-- Per-symbol section of the override store: an optional `default`
document and an optional `timeframes` sub-dict. -/
structure SymbolConfig where
  sym_default : Option OverrideDoc := none
  timeframes : Option (String → Option OverrideDoc) := none

/-- The override store `self.overrides`: optional top-level `timeframes`
and `symbols` dicts. -/
structure Overrides where
  timeframes : Option (String → Option OverrideDoc) := none
  symbols : Option (String → Option SymbolConfig) := none

/-- `ParameterManager._merge_parameters`: copy the base groups to fresh
dicts, `update` each with the keys the override document specifies, and
rebuild a fresh `TradingParameters`. -/
def merge_parameters (base : TradingParameters) (ov : OverrideDoc) : TradingParameters :=
  let risk :=
    match ov.risk with
    | none => base.risk
    | some r =>
      { max_risk_percent := r.max_risk_percent.getD base.risk.max_risk_percent
        stop_loss_atr_multiplier := r.stop_loss_atr_multiplier.getD base.risk.stop_loss_atr_multiplier
        take_profit_rr_ratio := r.take_profit_rr_ratio.getD base.risk.take_profit_rr_ratio
        position_size_percent := r.position_size_percent.getD base.risk.position_size_percent }
  let fvg :=
    match ov.fvg with
    | none => base.fvg
    | some f =>
      { min_gap_percent := f.min_gap_percent.getD base.fvg.min_gap_percent
        max_age_candles := f.max_age_candles.getD base.fvg.max_age_candles
        volume_confirmation := f.volume_confirmation.getD base.fvg.volume_confirmation }
  { risk := risk, fvg := fvg }

/-- `ParameterManager.get_default_parameters` with the default settings of
src/src/config/settings.py (no environment overrides). -/
def default_parameters : TradingParameters :=
  { risk :=
      { max_risk_percent := 1
        stop_loss_atr_multiplier := 3 / 2
        take_profit_rr_ratio := 2
        position_size_percent := 2 }
    fvg :=
      { min_gap_percent := 1 / 10
        max_age_candles := 50
        volume_confirmation := true } }

/-- `ParameterManager.get_parameters`: start from defaults, then apply the
timeframe-level override, then the symbol-level `default` override, then
the symbol+timeframe override, each layer merged onto the previous one. -/
def get_parameters (ov : Overrides) (defaults : TradingParameters)
    (symbol timeframe : Option String) : TradingParameters :=
  let params := defaults
  let params :=
    match timeframe, ov.timeframes with
    | some tf, some tfs =>
      match tfs tf with
      | some doc => merge_parameters params doc
      | none => params
    | _, _ => params
  match symbol, ov.symbols with
  | some s, some syms =>
    match syms s with
    | some cfg =>
      let params :=
        match cfg.sym_default with
        | some doc => merge_parameters params doc
        | none => params
      match timeframe, cfg.timeframes with
      | some tf, some ctfs =>
        match ctfs tf with
        | some doc => merge_parameters params doc
        | none => params
      | _, _ => params
    | none => params
  | _, _ => params

/-- State-passing form of `get_parameters`: the Python method only reads
`self.overrides` (every mutation in `_merge_parameters` is on fresh
copies), so the threaded store is returned as received. -/
def get_parameters_st (st : Overrides) (symbol timeframe : Option String) :
    TradingParameters × Overrides :=
  (get_parameters st default_parameters symbol timeframe, st)

/-! ## ATR and price levels (src/src/patterns/base.py) -/

/-- True range of candle `i` (`BasePattern.calculate_atr`):
`max(high - low, |high - prev_close|, |low - prev_close|)`; for the first
candle the previous close is NaN and pandas' row-wise `max` skips NaN,
leaving `high - low`. -/
def true_range (df : List Candle) (i : ℕ) : ℚ :=
  match df.get? i with
  | none => 0
  | some c =>
    if i = 0 then c.high - c.low
    else
      match df.get? (i - 1) with
      | none => c.high - c.low
      | some p => max (c.high - c.low) (max |c.high - p.close| |c.low - p.close|)

/-- `tr.rolling(window=14).mean()` evaluated at index `i`: NaN until 14
true-range values are available (i.e. for `i < 13`). -/
def atr (df : List Candle) (i : ℕ) : PFloat :=
  if 13 ≤ i ∧ i < df.length then
    PFloat.val (((List.range 14).map (fun k => true_range df (i - 13 + k))).sum / 14)
  else PFloat.nan

/-- `BasePattern.calculate_stop_loss`.  The guard is Python `if atr:` —
float truthiness — so a NaN ATR takes the ATR branch (and poisons the
result); only `atr == 0.0` (or an absent argument) reaches the flat 2%
fallback. -/
def calculate_stop_loss (entry_price : ℚ) (direction : String)
    (atrv : PFloat) (params : TradingParameters) : PFloat :=
  if atrv.pyTruthy then
    let multiplier := params.risk.stop_loss_atr_multiplier
    if direction = "bullish" then
      PFloat.val entry_price - atrv * PFloat.val multiplier
    else
      PFloat.val entry_price + atrv * PFloat.val multiplier
  else
    if direction = "bullish" then PFloat.val (entry_price * (98 / 100))
    else PFloat.val (entry_price * (102 / 100))

/-- `BasePattern.calculate_take_profit`.  `rr_override or params...`:
Python `or`, so a 0 override also falls back to the parameter value. -/
def calculate_take_profit (entry_price : ℚ) (stop_loss : PFloat)
    (direction : String) (rr_override : Option ℚ) (params : TradingParameters) : PFloat :=
  let rr_ratio :=
    match rr_override with
    | some r => if r = 0 then params.risk.take_profit_rr_ratio else r
    | none => params.risk.take_profit_rr_ratio
  let risk := (PFloat.val entry_price - stop_loss).abs
  if direction = "bullish" then PFloat.val entry_price + risk * PFloat.val rr_ratio
  else PFloat.val entry_price - risk * PFloat.val rr_ratio

/-! ## FVG detection (src/src/patterns/fvg.py) -/

/-- `FVGPattern._detect_bullish_fvg`.  `gap_size_percent` divides by
`gap_bottom`; with rational arithmetic a zero `gap_bottom` yields 0 and the
candidate is rejected (numpy would give inf there — prices are positive on
every input any theorem below touches). -/
def detect_bullish_fvg (candle_0 candle_1 candle_2 : Candle) (timestamp : ℤ)
    (symbol timeframe : String) (atrv : PFloat) (params : TradingParameters) :
    Option Pattern :=
  let gap_bottom := candle_0.high
  let gap_top := candle_2.low
  if gap_bottom ≥ gap_top then none
  else
    let gap_size := gap_top - gap_bottom
    let gap_size_percent := gap_size / gap_bottom * 100
    if gap_size_percent < params.fvg.min_gap_percent then none
    else if candle_2.close ≤ candle_2.open_ then none
    else if params.fvg.volume_confirmation ∧ candle_2.volume ≤ candle_1.volume then none
    else
      let entry_price := (gap_bottom + gap_top) / 2
      let stop_loss := calculate_stop_loss gap_bottom "bullish" atrv params
      let take_profit := calculate_take_profit entry_price stop_loss "bullish" none params
      some
        { symbol := symbol
          timeframe := timeframe
          pattern_type := "fvg"
          direction := "bullish"
          start_timestamp := timestamp
          entry_price := entry_price
          stop_loss := stop_loss
          take_profit := take_profit
          gap_top := gap_top
          gap_bottom := gap_bottom
          gap_size_percent := gap_size_percent
          is_valid := true }

/-- `FVGPattern._detect_bearish_fvg` (gap normalised by `gap_top`). -/
def detect_bearish_fvg (candle_0 candle_1 candle_2 : Candle) (timestamp : ℤ)
    (symbol timeframe : String) (atrv : PFloat) (params : TradingParameters) :
    Option Pattern :=
  let gap_top := candle_0.low
  let gap_bottom := candle_2.high
  if gap_top ≤ gap_bottom then none
  else
    let gap_size := gap_top - gap_bottom
    let gap_size_percent := gap_size / gap_top * 100
    if gap_size_percent < params.fvg.min_gap_percent then none
    else if candle_2.close ≥ candle_2.open_ then none
    else if params.fvg.volume_confirmation ∧ candle_2.volume ≤ candle_1.volume then none
    else
      let entry_price := (gap_bottom + gap_top) / 2
      let stop_loss := calculate_stop_loss gap_top "bearish" atrv params
      let take_profit := calculate_take_profit entry_price stop_loss "bearish" none params
      some
        { symbol := symbol
          timeframe := timeframe
          pattern_type := "fvg"
          direction := "bearish"
          start_timestamp := timestamp
          entry_price := entry_price
          stop_loss := stop_loss
          take_profit := take_profit
          gap_top := gap_top
          gap_bottom := gap_bottom
          gap_size_percent := gap_size_percent
          is_valid := true }

/-- One iteration of the detection loop at index `i ≥ 2`: test the triple
`(df[i-2], df[i-1], df[i])` for a bullish and then a bearish gap, the
pattern's `start_timestamp` being the third candle's timestamp. -/
def detectAt (df : List Candle) (symbol timeframe : String)
    (params : TradingParameters) (i : ℕ) : List Pattern :=
  match df.get? (i - 2), df.get? (i - 1), df.get? i with
  | some c0, some c1, some c2 =>
    (detect_bullish_fvg c0 c1 c2 c2.timestamp symbol timeframe (atr df i) params).toList
      ++ (detect_bearish_fvg c0 c1 c2 c2.timestamp symbol timeframe (atr df i) params).toList
  | _, _, _ => []

/-- `FVGPattern.detect`: scan every index from 2 to the end; fewer than 3
candles yields the empty list. -/
def detect (df : List Candle) (symbol timeframe : String)
    (params : TradingParameters) : List Pattern :=
  if df.length < 3 then []
  else (List.range' 2 (df.length - 2)).flatMap (detectAt df symbol timeframe params)

/-! ## Pattern validity (src/src/patterns/base.py `is_pattern_valid`,
src/src/patterns/fvg.py `_validate_pattern_specific`) -/

/-- `FVGPattern._validate_pattern_specific`: a bullish gap is filled when
price is at or below the gap bottom, a bearish one when at or above the
gap top. -/
def validate_pattern_specific (p : Pattern) (current_price : ℚ) : Bool :=
  if p.direction = "bullish" then
    if current_price ≤ p.gap_bottom then false else true
  else
    if current_price ≥ p.gap_top then false else true

/-- `BasePattern.is_pattern_valid`.  The source computes
`age_candles = (current_timestamp - pattern.start_timestamp).total_seconds() / 60`
— elapsed wall-clock MINUTES, with no dependence on the pattern's
timeframe — and compares it to `max_age_candles`. -/
def is_pattern_valid (p : Pattern) (current_price : ℚ) (current_timestamp : ℤ)
    (params : TradingParameters) : Bool :=
  if !p.is_valid then false
  else
    let age_candles : ℚ := ((current_timestamp - p.start_timestamp : ℤ) : ℚ) / 60
    if p.pattern_type = "fvg" ∧ age_candles > (params.fvg.max_age_candles : ℚ) then false
    else validate_pattern_specific p current_price

/-- Minutes per candle of a timeframe, following the spec's canonical
ordering 1m, 5m, 15m, 30m, 1h, 4h, 1d, 1w. -/
def timeframe_minutes : String → ℤ
  | "1m" => 1
  | "5m" => 5
  | "15m" => 15
  | "30m" => 30
  | "1h" => 60
  | "4h" => 240
  | "1d" => 1440
  | "1w" => 10080
  | _ => 1

/-- Modelled from the spec (validity check, §4.2): elapsed time from the
pattern's start, expressed in candle units of the pattern's own timeframe. -/
def spec_age_in_candles (timeframe : String) (start_ts current_ts : ℤ) : ℚ :=
  ((current_ts - start_ts : ℤ) : ℚ) / (60 * (timeframe_minutes timeframe : ℚ))

/-- Modelled from the spec (validity check, §4.2): a still-valid fvg
pattern is valid exactly when its age in candles of its own timeframe does
not exceed `max_age_candles` and price has not retraced into the gap. -/
def spec_is_pattern_valid (p : Pattern) (current_price : ℚ)
    (current_timestamp : ℤ) (params : TradingParameters) : Bool :=
  if !p.is_valid then false
  else if spec_age_in_candles p.timeframe p.start_timestamp current_timestamp
      > (params.fvg.max_age_candles : ℚ) then false
  else if p.direction = "bullish" ∧ current_price ≤ p.gap_bottom then false
  else if p.direction ≠ "bullish" ∧ current_price ≥ p.gap_top then false
  else true

/-! ## Confluence engine (src/src/analysis/confluence.py) -/

/-- A trading signal (src/src/data/models.py `Signal`), as built by
`ConfluenceAnalyzer._find_confluence_signal`. -/
structure Signal where
  symbol : String
  direction : String
  pattern_ids : List ℕ
  primary_timeframe : String
  confluence_count : ℕ
  entry_price : ℚ
  stop_loss : PFloat
  take_profit : PFloat
  risk_reward_ratio : PFloat
  position_size_percent : ℚ
  risk_amount_percent : ℚ
  status : String
  notified : Bool
deriving DecidableEq, Repr

/-- Python `max(patterns, key=lambda p: p.start_timestamp)`: the first
maximal element (later elements replace the best only when strictly
greater). -/
def max_by_start (m : Pattern) (ms : List Pattern) : Pattern :=
  ms.foldl (fun best q => if best.start_timestamp < q.start_timestamp then q else best) m

/-- The canonical timeframe ordering, finest to coarsest. -/
def timeframe_order : List String :=
  ["1m", "5m", "15m", "30m", "1h", "4h", "1d", "1w"]

/-- `ConfluenceAnalyzer._get_highest_timeframe`: walk the canonical
ordering coarsest-first and return the first member of `tfs`; the source
falls back to `timeframes[0]` (an `IndexError` on an empty list — modelled
by `headD`, unreachable below). -/
def get_highest_timeframe (tfs : List String) : String :=
  match timeframe_order.reverse.find? (fun tf => tfs.contains tf) with
  | some tf => tf
  | none => tfs.headD ""

/-- `ConfluenceAnalyzer._find_confluence_signal`, taking the per-timeframe
snapshot of currently valid, in-window patterns (the database fetch and
recency filter of `analyze_confluence` are the collaborator boundary).
The `find?` `none` branch is a `StopIteration` in the source; it is
unreachable whenever each pattern's `timeframe` field matches its key. -/
def find_confluence_signal (symbol : String)
    (patterns_by_timeframe : List (String × List Pattern))
    (direction : String) (min_confluence : ℕ) : Option Signal :=
  let acc := patterns_by_timeframe.foldl
    (fun (acc : List String × List Pattern) entry =>
      match entry.2.filter (fun p => p.direction = direction) with
      | [] => acc
      | m :: ms => (acc.1 ++ [entry.1], acc.2 ++ [max_by_start m ms]))
    ([], [])
  let confluent_timeframes := acc.1
  let confluent_patterns := acc.2
  let confluence_count := confluent_timeframes.length
  if confluence_count < min_confluence then none
  else
    let primary_timeframe := get_highest_timeframe confluent_timeframes
    match confluent_patterns.find? (fun p => p.timeframe = primary_timeframe) with
    | none => none
    | some primary_pattern =>
      let avg_entry := (confluent_patterns.map Pattern.entry_price).sum
          / (confluent_patterns.length : ℚ)
      let risk := (PFloat.val primary_pattern.entry_price - primary_pattern.stop_loss).abs
      let reward := (primary_pattern.take_profit - PFloat.val primary_pattern.entry_price).abs
      let stop_loss :=
        if direction = "bullish" then PFloat.val avg_entry - risk
        else PFloat.val avg_entry + risk
      let take_profit :=
        if direction = "bullish" then PFloat.val avg_entry + reward
        else PFloat.val avg_entry - reward
      let risk_reward_ratio :=
        (take_profit - PFloat.val avg_entry).abs / (PFloat.val avg_entry - stop_loss).abs
      some
        { symbol := symbol
          direction := if direction = "bullish" then "long" else "short"
          pattern_ids := confluent_patterns.map Pattern.id
          primary_timeframe := primary_timeframe
          confluence_count := confluence_count
          entry_price := avg_entry
          stop_loss := stop_loss
          take_profit := take_profit
          risk_reward_ratio := risk_reward_ratio
          position_size_percent := 2
          risk_amount_percent := 1
          status := "active"
          notified := false }

/-- `ConfluenceAnalyzer.analyze_confluence` downstream of the snapshot: a
bullish signal, if any, followed by a bearish signal, if any. -/
def analyze_confluence_core (symbol : String)
    (patterns_by_timeframe : List (String × List Pattern))
    (min_confluence : ℕ) : List Signal :=
  (find_confluence_signal symbol patterns_by_timeframe "bullish" min_confluence).toList
    ++ (find_confluence_signal symbol patterns_by_timeframe "bearish" min_confluence).toList

/-! ## Backtest simulator (src/src/backtesting/engine.py) -/

/-- A simulated trade (the dict built in `BacktestEngine._enter_trade`).
The source stores the pattern's direction string verbatim —
`'bullish'`/`'bearish'` — in `trade['direction']`. -/
structure SimTrade where
  direction : String
  entry_price : ℚ
  stop_loss : PFloat
  take_profit : PFloat
  position_size : PFloat
  entry_time : ℤ
  exit_price : Option PFloat := none
  exit_time : Option ℤ := none
  exit_reason : Option String := none
  pnl : Option PFloat := none
deriving DecidableEq, Repr

/-- `BacktestEngine._enter_trade` with the default settings
(`MAX_RISK_PERCENT = 1.0`, `POSITION_SIZE_PERCENT = 2.0`).  The division
by the per-unit risk is guarded by `risk_per_unit > 0`. -/
def enter_trade (capital : PFloat) (pattern : Pattern) (entry_price : ℚ)
    (entry_time : ℤ) : SimTrade :=
  let risk_amount := capital * PFloat.val (1 / 100)
  let risk_per_unit := (PFloat.val entry_price - pattern.stop_loss).abs
  let position_size :=
    if (PFloat.val 0).blt risk_per_unit then risk_amount / risk_per_unit
    else PFloat.val 0
  let max_position := capital * PFloat.val (2 / 100)
  let position_size := position_size.pymin max_position
  { direction := pattern.direction
    entry_price := entry_price
    stop_loss := pattern.stop_loss
    take_profit := pattern.take_profit
    position_size := position_size
    entry_time := entry_time }

/-- `BacktestEngine._check_exit`: stop before target for a `'long'` trade,
mirrored in the `else` branch (which the source reaches for every
non-`'long'` direction string); the exit price is the exact stop/target
level. -/
def check_exit (trade : SimTrade) (candle : Candle) : Option (PFloat × String) :=
  if trade.direction = "long" then
    if (PFloat.val candle.low).ble trade.stop_loss then
      some (trade.stop_loss, "stop_loss")
    else if trade.take_profit.ble (PFloat.val candle.high) then
      some (trade.take_profit, "take_profit")
    else none
  else
    if trade.stop_loss.ble (PFloat.val candle.high) then
      some (trade.stop_loss, "stop_loss")
    else if (PFloat.val candle.low).ble trade.take_profit then
      some (trade.take_profit, "take_profit")
    else none

/-- `BacktestEngine._close_trade`: realize the P&L
(`(exit-entry)*size/entry` for `'long'`, `(entry-exit)*size/entry`
otherwise) and add it to the running capital; returns the new capital and
the closed trade record. -/
def close_trade (capital : PFloat) (trade : SimTrade) (exit_price : PFloat)
    (exit_time : ℤ) (exit_reason : String) : PFloat × SimTrade :=
  let pnl :=
    if trade.direction = "long" then
      (exit_price - PFloat.val trade.entry_price) * trade.position_size
        / PFloat.val trade.entry_price
    else
      (PFloat.val trade.entry_price - exit_price) * trade.position_size
        / PFloat.val trade.entry_price
  (capital + pnl,
    { trade with
        exit_price := some exit_price
        exit_time := some exit_time
        exit_reason := some exit_reason
        pnl := some pnl })

/-- Mutable engine state during `backtest_fvg_strategy`'s loop. -/
structure BState where
  capital : PFloat
  trades : List SimTrade
  active : List SimTrade
  equity_curve : List PFloat
deriving Repr

/-- The detection window at step `i`: `df.iloc[max(0, i-100) : i+1]`. -/
def bt_window (df : List Candle) (i : ℕ) : List Candle :=
  (df.drop (i - 100)).take (i + 1 - (i - 100))

/-- One iteration of the backtest loop at candle index `i`: detect over
the trailing window, possibly open a trade on the most recent pattern,
close any active trade whose stop/target the candle touches, and append
the mark-to-market equity. -/
def backtest_step (symbol timeframe : String) (params : TradingParameters)
    (df : List Candle) (st : BState) (i : ℕ) : BState :=
  match df.get? i with
  | none => st
  | some current_candle =>
    let current_price := current_candle.close
    let current_timestamp := current_candle.timestamp
    let patterns := detect (bt_window df i) symbol timeframe params
    let active :=
      match patterns.getLast? with
      | none => st.active
      | some latest_pattern =>
        if st.active.isEmpty then
          if latest_pattern.direction = "bullish" then
            if current_candle.low ≤ latest_pattern.entry_price then
              st.active ++ [enter_trade st.capital latest_pattern
                latest_pattern.entry_price current_timestamp]
            else st.active
          else
            if current_candle.high ≥ latest_pattern.entry_price then
              st.active ++ [enter_trade st.capital latest_pattern
                latest_pattern.entry_price current_timestamp]
            else st.active
        else st.active
    let exits := active.foldl
      (fun (acc : PFloat × List SimTrade × List SimTrade) trade =>
        match check_exit trade current_candle with
        | some ex =>
          let closed := close_trade acc.1 trade ex.1 current_timestamp ex.2
          (closed.1, acc.2.1 ++ [closed.2], acc.2.2)
        | none => (acc.1, acc.2.1, acc.2.2 ++ [trade]))
      (st.capital, [], [])
    let capital := exits.1
    let remaining := exits.2.2
    let total_equity := remaining.foldl
      (fun eq trade =>
        let pnl :=
          if trade.direction = "long" then
            (PFloat.val current_price - PFloat.val trade.entry_price)
              * trade.position_size / PFloat.val trade.entry_price
          else
            (PFloat.val trade.entry_price - PFloat.val current_price)
              * trade.position_size / PFloat.val trade.entry_price
        eq + pnl)
      capital
    { capital := capital
      trades := st.trades ++ exits.2.1
      active := remaining
      equity_curve := st.equity_curve ++ [total_equity] }

/-- The per-run performance summary: the `BacktestResult` fields touched
by the claims (the Sharpe-like ratio involves an irrational `sqrt 252` and
is omitted; no claim refers to it). -/
structure BSummary where
  total_trades : ℕ
  winning_trades : ℕ
  losing_trades : ℕ
  total_pnl : PFloat
  final_capital : PFloat
  max_drawdown : PFloat
deriving DecidableEq, Repr

/-- Drawdown series against the running maximum, in order. -/
def drawdown_list : List ℚ → ℚ → List ℚ
  | [], _ => []
  | e :: rest, m =>
    let m2 := max m e
    ((e - m2) / m2) :: drawdown_list rest m2

/-- `abs(drawdown.min()) * 100` over the equity curve.  The pandas
expanding max / min skip NaN entries, which is running the same
computation over the `val` entries in order; an empty series gives NaN. -/
def max_drawdown_percent (eq : List PFloat) : PFloat :=
  let qs := eq.filterMap (fun x => match x with | PFloat.val q => some q | PFloat.nan => none)
  match qs with
  | [] => PFloat.nan
  | e :: rest =>
    match drawdown_list (e :: rest) e with
    | [] => PFloat.nan
    | d :: ds => PFloat.val (|ds.foldl min d| * 100)

/-- `BacktestEngine._calculate_metrics`: with an empty trade ledger the
source prints a notice and returns `None` — no zero-trade report exists. -/
def calculate_metrics (st : BState) : Option BSummary :=
  if st.trades.isEmpty then none
  else
    let winning := st.trades.filter (fun t => (PFloat.val 0).blt (t.pnl.getD PFloat.nan))
    let losing := st.trades.filter (fun t => (t.pnl.getD PFloat.nan).ble (PFloat.val 0))
    let total_pnl := st.trades.foldl (fun s t => s + t.pnl.getD PFloat.nan) (PFloat.val 0)
    some
      { total_trades := st.trades.length
        winning_trades := winning.length
        losing_trades := losing.length
        total_pnl := total_pnl
        final_capital := st.capital
        max_drawdown := max_drawdown_percent st.equity_curve }

/-- The possible outcomes of one `backtest_fvg_strategy` call, with the
exception path explicit.  With fewer than 100 candles the source returns
`None` early.  After the loop it unconditionally calls
`self._display_results(result)`; when no trade was executed
`_calculate_metrics` returned `None`, and `_display_results` immediately
reads `result.total_trades` and raises `AttributeError` — the call neither
returns a zero-trade report nor a clean `None`. -/
inductive BacktestOutcome where
  | insufficient_data : BacktestOutcome
  | attribute_error : BacktestOutcome
  | report : BSummary → BacktestOutcome
deriving DecidableEq, Repr

/-- `BacktestEngine.backtest_fvg_strategy` downstream of the candle fetch:
fewer than 100 candles aborts with `None` (`insufficient_data`); otherwise
the loop runs from index 100 to the end and the metrics are computed.  A
`None` metrics result (empty trade ledger) is then passed to
`_display_results`, which raises `AttributeError` (`attribute_error`); a
real report is displayed, saved and returned. -/
def backtest_fvg_strategy (candles : List Candle) (initial_capital : ℚ)
    (symbol timeframe : String) (params : TradingParameters) : BacktestOutcome :=
  if candles.length < 100 then BacktestOutcome.insufficient_data
  else
    let init : BState :=
      { capital := PFloat.val initial_capital, trades := [], active := [], equity_curve := [] }
    let final := (List.range' 100 (candles.length - 100)).foldl
      (backtest_step symbol timeframe params candles) init
    match calculate_metrics final with
    | none => BacktestOutcome.attribute_error
    | some r => BacktestOutcome.report r

/-! ## Concrete material for evaluations and witnesses -/

/-- A bullish 1h fvg pattern started at POSIX time 0 (gap 100–102). -/
def p1h : Pattern :=
  { symbol := "BTCUSDT", timeframe := "1h", pattern_type := "fvg", direction := "bullish",
    start_timestamp := 0, entry_price := 101, stop_loss := PFloat.nan,
    take_profit := PFloat.nan, gap_top := 102, gap_bottom := 100,
    gap_size_percent := 2, is_valid := true }

/-- Three candles containing a qualifying bullish gap at index 2 (long before
the 14-period ATR warm-up completes). -/
def df3 : List Candle :=
  [ { open_ := 99, high := 100, low := 98, close := 100, volume := 10, timestamp := 0 },
    { open_ := 100, high := 101, low := 100, close := 101, volume := 10, timestamp := 3600 },
    { open_ := 102, high := 103, low := 102, close := 103, volume := 20, timestamp := 7200 } ]

/-- The pattern the detector emits on `df3`. -/
def pat3 : Pattern :=
  { symbol := "BTCUSDT", timeframe := "1h", pattern_type := "fvg", direction := "bullish",
    start_timestamp := 7200, entry_price := 101, stop_loss := PFloat.nan,
    take_profit := PFloat.nan, gap_top := 102, gap_bottom := 100,
    gap_size_percent := 2, is_valid := true }

/-- One hundred identical candles: no gap anywhere. -/
def df100 : List Candle :=
  List.replicate 100
    { open_ := 100, high := 101, low := 99, close := 100, volume := 10, timestamp := 0 }

/-- Timeframe-level override: min_gap_percent 0.2 for the 1h timeframe. -/
def tf_doc_ex : OverrideDoc := { fvg := some { min_gap_percent := some (1 / 5) } }

/-- Symbol+timeframe override: min_gap_percent 0.3. -/
def st_doc_ex : OverrideDoc := { fvg := some { min_gap_percent := some (3 / 10) } }

def sym_cfg_ex : SymbolConfig :=
  { sym_default := none,
    timeframes := some fun t => if t = "1h" then some st_doc_ex else none }

/-- Override store holding both overrides of the precedence scenario. -/
def ov_ex : Overrides :=
  { timeframes := some fun t => if t = "1h" then some tf_doc_ex else none,
    symbols := some fun s => if s = "BTCUSDT" then some sym_cfg_ex else none }

/-- A candle that, for a long trade with stop 99 and target 105, touches
neither level under the claimed long rules (low 100 > 99, high 104 < 105). -/
def candle_c7 : Candle :=
  { open_ := 101, high := 104, low := 100, close := 103, volume := 1, timestamp := 60 }

/-- Degenerate pattern: entry price equals stop loss, so the per-unit risk
is zero. -/
def pat_deg : Pattern :=
  { symbol := "BTCUSDT", timeframe := "1h", pattern_type := "fvg", direction := "bullish",
    start_timestamp := 0, entry_price := 100, stop_loss := PFloat.val 100,
    take_profit := PFloat.val 104, gap_top := 101, gap_bottom := 99,
    gap_size_percent := 2, is_valid := true }

def candle_deg : Candle :=
  { open_ := 100, high := 102, low := 99, close := 101, volume := 1, timestamp := 120 }

def tf_p1 : Pattern :=
  { symbol := "BTCUSDT", timeframe := "1h", pattern_type := "fvg", direction := "bullish",
    start_timestamp := 100, entry_price := 101, stop_loss := PFloat.val 99,
    take_profit := PFloat.val 105, gap_top := 102, gap_bottom := 100,
    gap_size_percent := 2, is_valid := true }

def tf_p2 : Pattern :=
  { symbol := "BTCUSDT", timeframe := "4h", pattern_type := "fvg", direction := "bullish",
    start_timestamp := 200, entry_price := 103, stop_loss := PFloat.val 100,
    take_profit := PFloat.val 109, gap_top := 104, gap_bottom := 102,
    gap_size_percent := 2, is_valid := true }

def tf_p3 : Pattern :=
  { symbol := "BTCUSDT", timeframe := "1d", pattern_type := "fvg", direction := "bullish",
    start_timestamp := 300, entry_price := 105, stop_loss := PFloat.val 101,
    take_profit := PFloat.val 113, gap_top := 106, gap_bottom := 104,
    gap_size_percent := 2, is_valid := true }


/-! ## Basic facts about the float model -/

@[simp] theorem pf_val_add (a b : ℚ) : PFloat.val a + PFloat.val b = PFloat.val (a + b) := rfl

@[simp] theorem pf_val_sub (a b : ℚ) : PFloat.val a - PFloat.val b = PFloat.val (a - b) := rfl

@[simp] theorem pf_val_mul (a b : ℚ) : PFloat.val a * PFloat.val b = PFloat.val (a * b) := rfl

@[simp] theorem pf_val_div (a b : ℚ) :
    PFloat.val a / PFloat.val b = if b = 0 then PFloat.nan else PFloat.val (a / b) := rfl

@[simp] theorem pf_nan_add (b : PFloat) : PFloat.nan + b = PFloat.nan := by cases b <;> rfl

@[simp] theorem pf_add_nan (a : PFloat) : a + PFloat.nan = PFloat.nan := by cases a <;> rfl

@[simp] theorem pf_nan_sub (b : PFloat) : PFloat.nan - b = PFloat.nan := by cases b <;> rfl

@[simp] theorem pf_sub_nan (a : PFloat) : a - PFloat.nan = PFloat.nan := by cases a <;> rfl

@[simp] theorem pf_nan_mul (b : PFloat) : PFloat.nan * b = PFloat.nan := by cases b <;> rfl

@[simp] theorem pf_mul_nan (a : PFloat) : a * PFloat.nan = PFloat.nan := by cases a <;> rfl

@[simp] theorem pf_nan_div (b : PFloat) : PFloat.nan / b = PFloat.nan := by cases b <;> rfl

@[simp] theorem pf_div_nan (a : PFloat) : a / PFloat.nan = PFloat.nan := by cases a <;> rfl

@[simp] theorem pf_abs_val (a : ℚ) : (PFloat.val a).abs = PFloat.val |a| := rfl

@[simp] theorem pf_abs_nan : PFloat.nan.abs = PFloat.nan := rfl

@[simp] theorem pf_ble_val_val (a b : ℚ) :
    (PFloat.val a).ble (PFloat.val b) = decide (a ≤ b) := rfl

@[simp] theorem pf_ble_nan_left (b : PFloat) : PFloat.nan.ble b = false := by cases b <;> rfl

@[simp] theorem pf_ble_nan_right (a : PFloat) : a.ble PFloat.nan = false := by cases a <;> rfl

@[simp] theorem pf_blt_val_val (a b : ℚ) :
    (PFloat.val a).blt (PFloat.val b) = decide (a < b) := rfl

@[simp] theorem pf_blt_nan_left (b : PFloat) : PFloat.nan.blt b = false := by cases b <;> rfl

@[simp] theorem pf_blt_nan_right (a : PFloat) : a.blt PFloat.nan = false := by cases a <;> rfl

@[simp] theorem pf_pyTruthy_nan : PFloat.nan.pyTruthy = true := rfl

@[simp] theorem pf_pyTruthy_val (q : ℚ) : (PFloat.val q).pyTruthy = decide (q ≠ 0) := rfl

/-! ## Helper lemmas -/

/-- A true float comparison has non-NaN operands. -/
theorem ble_true_vals {a b : PFloat} (h : a.ble b = true) :
    ∃ x y : ℚ, a = PFloat.val x ∧ b = PFloat.val y := by
  cases a with
  | nan => simp at h
  | val x =>
    cases b with
    | nan => simp at h
    | val y => exact ⟨x, y, rfl, rfl⟩

/-- Any exit produced by `check_exit` carries a non-NaN exit price (the
exit only fires after a comparison against that very level succeeded). -/
theorem check_exit_price_val {tr : SimTrade} {cd : Candle} {pr : PFloat} {r : String}
    (hex : check_exit tr cd = some (pr, r)) : ∃ x : ℚ, pr = PFloat.val x := by
  unfold check_exit at hex
  split_ifs at hex with h1 h2 h3 h4 h5 <;>
    simp only [Option.some.injEq, Prod.mk.injEq, reduceCtorEq] at hex
  · obtain ⟨x, y, _, hy⟩ := ble_true_vals h2
    exact ⟨y, hex.1 ▸ hy⟩
  · obtain ⟨x, y, hx, _⟩ := ble_true_vals h3
    exact ⟨x, hex.1 ▸ hx⟩
  · obtain ⟨x, y, hx, _⟩ := ble_true_vals h4
    exact ⟨x, hex.1 ▸ hx⟩
  · obtain ⟨x, y, _, hy⟩ := ble_true_vals h5
    exact ⟨y, hex.1 ▸ hy⟩

/-- Facts carried by any pattern the bullish branch emits. -/
theorem bullish_some_facts {c0 c1 c2 : Candle} {ts : ℤ} {sym tf : String}
    {atrv : PFloat} {params : TradingParameters} {p : Pattern}
    (h : detect_bullish_fvg c0 c1 c2 ts sym tf atrv params = some p) :
    p.gap_bottom = c0.high ∧ p.gap_top = c2.low ∧ c0.high < c2.low ∧
    p.entry_price = (c0.high + c2.low) / 2 ∧ p.direction = "bullish" := by
  unfold detect_bullish_fvg at h
  split_ifs at h with h1 h2
  all_goals simp at h
  obtain ⟨hlt, hgap, rfl⟩ := h
  exact ⟨rfl, rfl, hlt, rfl, rfl⟩

/-- Facts carried by any pattern the bearish branch emits. -/
theorem bearish_some_facts {c0 c1 c2 : Candle} {ts : ℤ} {sym tf : String}
    {atrv : PFloat} {params : TradingParameters} {p : Pattern}
    (h : detect_bearish_fvg c0 c1 c2 ts sym tf atrv params = some p) :
    p.gap_top = c0.low ∧ p.gap_bottom = c2.high ∧ c2.high < c0.low ∧
    p.entry_price = (c2.high + c0.low) / 2 ∧ p.direction = "bearish" := by
  unfold detect_bearish_fvg at h
  split_ifs at h with h1 h2
  all_goals simp at h
  obtain ⟨hlt, hgap, rfl⟩ := h
  exact ⟨rfl, rfl, hlt, rfl, rfl⟩

/-- Any member of `detectAt` comes from one of the two directional
branches applied to the triple at that index. -/
theorem mem_detectAt {df : List Candle} {sym tf : String} {params : TradingParameters}
    {i : ℕ} {p : Pattern} (hp : p ∈ detectAt df sym tf params i) :
    ∃ c0 c1 c2, df.get? (i - 2) = some c0 ∧ df.get? (i - 1) = some c1 ∧ df.get? i = some c2 ∧
      (detect_bullish_fvg c0 c1 c2 c2.timestamp sym tf (atr df i) params = some p ∨
       detect_bearish_fvg c0 c1 c2 c2.timestamp sym tf (atr df i) params = some p) := by
  unfold detectAt at hp
  cases h0 : df.get? (i - 2) with
  | none => rw [h0] at hp; simp at hp
  | some c0 =>
    cases h1 : df.get? (i - 1) with
    | none => rw [h0, h1] at hp; simp at hp
    | some c1 =>
      cases h2 : df.get? i with
      | none => rw [h0, h1, h2] at hp; simp at hp
      | some c2 =>
        rw [h0, h1, h2] at hp
        rcases List.mem_append.mp hp with hb | hb
        · exact ⟨c0, c1, c2, rfl, rfl, rfl, Or.inl (Option.mem_def.mp (Option.mem_toList.mp hb))⟩
        · exact ⟨c0, c1, c2, rfl, rfl, rfl, Or.inr (Option.mem_def.mp (Option.mem_toList.mp hb))⟩

/-- The gap/entry invariant for one detection step. -/
theorem detectAt_gap_invariant {df : List Candle} {sym tf : String}
    {params : TradingParameters} {i : ℕ} {p : Pattern}
    (hp : p ∈ detectAt df sym tf params i) :
    p.gap_bottom < p.gap_top ∧ p.gap_bottom < p.entry_price ∧ p.entry_price < p.gap_top ∧
    p.entry_price = (p.gap_bottom + p.gap_top) / 2 := by
  obtain ⟨c0, c1, c2, _, _, _, hd⟩ := mem_detectAt hp
  rcases hd with hd | hd
  · obtain ⟨hb, ht, hlt, he, _⟩ := bullish_some_facts hd
    rw [hb, ht, he]
    refine ⟨hlt, by linarith, by linarith, rfl⟩
  · obtain ⟨ht, hb, hlt, he, _⟩ := bearish_some_facts hd
    rw [hb, ht, he]
    refine ⟨hlt, by linarith, by linarith, rfl⟩

/-- When no window ever yields a pattern, the backtest loop neither opens
nor records a trade. -/
theorem backtest_no_detect_inv (symbol timeframe : String) (params : TradingParameters)
    (df : List Candle) (l : List ℕ) (st : BState)
    (hact : st.active = [])
    (hdet : ∀ i ∈ l, detect (bt_window df i) symbol timeframe params = []) :
    (l.foldl (backtest_step symbol timeframe params df) st).active = [] ∧
    (l.foldl (backtest_step symbol timeframe params df) st).trades = st.trades := by
  induction l generalizing st with
  | nil => exact ⟨hact, rfl⟩
  | cons i rest ih =>
    have hi : detect (bt_window df i) symbol timeframe params = [] :=
      hdet i (List.mem_cons_self i rest)
    have hrest : ∀ j ∈ rest, detect (bt_window df j) symbol timeframe params = [] :=
      fun j hj => hdet j (List.mem_cons_of_mem i hj)
    simp only [List.foldl_cons]
    have hstep : (backtest_step symbol timeframe params df st i).active = [] ∧
        (backtest_step symbol timeframe params df st i).trades = st.trades := by
      unfold backtest_step
      cases hget : df.get? i with
      | none => exact ⟨hact, rfl⟩
      | some c =>
        simp only [hi, hact, List.getLast?_nil, List.foldl_nil, List.append_nil]
        exact ⟨trivial, trivial⟩
    obtain ⟨h1, h2⟩ := hstep
    obtain ⟨h3, h4⟩ := ih _ h1 hrest
    exact ⟨h3, h4.trans h2⟩

/-- `_get_highest_timeframe` returns a member of its (nonempty) input. -/
theorem ght_mem {l : List String} (hne : l ≠ []) : get_highest_timeframe l ∈ l := by
  unfold get_highest_timeframe
  cases hf : timeframe_order.reverse.find? (fun tf => l.contains tf) with
  | some tf =>
    have := List.find?_some hf
    simpa using this
  | none =>
    cases l with
    | nil => exact absurd rfl hne
    | cons a as => exact List.mem_cons_self a as

/-- Full evaluation of the detector on `df3`: the gap triple qualifies, and
the emitted stop loss and take profit are poisoned by the NaN ATR. -/
theorem detect_df3_eq : detect df3 "BTCUSDT" "1h" default_parameters = [pat3] := by
  norm_num [detect, df3, detectAt, atr, detect_bullish_fvg, detect_bearish_fvg,
    calculate_stop_loss, calculate_take_profit, default_parameters, List.range', pat3]

/-! ## Claim theorems -/

/-- C1: the claim states that `is_pattern_valid` measures a pattern's age
in candle units of the pattern's own timeframe (so on the 1h timeframe one
hour is one unit).  The source instead computes
`(current_timestamp - start_timestamp).total_seconds() / 60` — wall-clock
minutes, independent of the timeframe — and compares those minutes with
`max_age_candles`.  On a 1h pattern that is 2 candles (120 minutes) old
with `max_age_candles = 50` and price still above the gap, the code
returns `false` while the claimed candle-unit semantics gives age 2 ≤ 50
and hence `true`. -/
theorem fvg_validity_age_is_wall_clock_minutes :
    is_pattern_valid p1h 105 7200 default_parameters = false ∧
    spec_is_pattern_valid p1h 105 7200 default_parameters = true ∧
    spec_age_in_candles "1h" 0 7200 = 2 := by
  refine ⟨?_, ?_, ?_⟩
  · norm_num [is_pattern_valid, p1h, default_parameters, validate_pattern_specific]
  · norm_num [spec_is_pattern_valid, p1h, default_parameters, spec_age_in_candles,
      timeframe_minutes]
  · norm_num [spec_age_in_candles, timeframe_minutes]

/-- C2: the claim states that a pattern detected before the 14-period ATR
warm-up completes gets the flat 2% stop (gap edge × 0.98 for bullish).  In
the source the warm-up ATR is NaN and `if atr:` is TRUE for NaN, so the
ATR branch is taken and the emitted stop loss is NaN — not 0.98 × 100 = 98
or any other finite number.  `df3` detects its gap at index 2, far inside
the warm-up. -/
theorem fvg_warmup_stop_loss_is_nan :
    (detect df3 "BTCUSDT" "1h" default_parameters).map Pattern.stop_loss = [PFloat.nan] ∧
    (∀ q : ℚ, PFloat.nan ≠ PFloat.val q) :=
  ⟨by rw [detect_df3_eq]; rfl, fun q h => PFloat.noConfusion h⟩

/-- Helper: a run of at least 100 candles in which no window ever yields a
pattern opens no trade, so `_calculate_metrics` returns `None` and the
unconditional `_display_results(result)` raises `AttributeError`. -/
theorem backtest_no_gap_raises (symbol timeframe : String) (params : TradingParameters)
    (candles : List Candle) (initial_capital : ℚ)
    (hlen : 100 ≤ candles.length)
    (hdet : ∀ i ∈ List.range' 100 (candles.length - 100),
      detect (bt_window candles i) symbol timeframe params = []) :
    backtest_fvg_strategy candles initial_capital symbol timeframe params
      = BacktestOutcome.attribute_error := by
  unfold backtest_fvg_strategy
  rw [if_neg (by omega)]
  have := backtest_no_detect_inv symbol timeframe params candles
    (List.range' 100 (candles.length - 100))
    { capital := PFloat.val initial_capital, trades := [], active := [], equity_curve := [] }
    rfl hdet
  have hm : calculate_metrics ((List.range' 100 (candles.length - 100)).foldl
      (backtest_step symbol timeframe params candles)
      { capital := PFloat.val initial_capital, trades := [],
        active := [], equity_curve := [] }) = none := by
    unfold calculate_metrics
    rw [if_pos]
    simp [this.2]
  simp only [hm]

/-- C3: the claim states that a run over ≥100 candles with no qualifying
gap returns a performance report with `total_trades = 0`, final capital
equal to the initial capital and zero drawdown.  The source does neither
that nor a clean null: `_calculate_metrics` returns `None` on the empty
trade ledger (engine.py:254-256) and `backtest_fvg_strategy` then
unconditionally calls `_display_results(result)` (engine.py:176), which
reads `result.total_trades` (engine.py:319) and raises `AttributeError`.
On 100 identical candles the run therefore ends in the exception path,
which is not a report. -/
theorem backtest_zero_trades_attribute_error :
    backtest_fvg_strategy df100 10000 "BTCUSDT" "1h" default_parameters
      = BacktestOutcome.attribute_error ∧
    (∀ r : BSummary, BacktestOutcome.attribute_error ≠ BacktestOutcome.report r) ∧
    BacktestOutcome.attribute_error ≠ BacktestOutcome.insufficient_data := by
  refine ⟨?_, fun r h => BacktestOutcome.noConfusion h, fun h => BacktestOutcome.noConfusion h⟩
  norm_num [backtest_fvg_strategy, df100, calculate_metrics, List.range']

/-- C4: every pattern the detector emits has `gap_top > gap_bottom` and an
entry price strictly between the two — it is their midpoint. -/
theorem detect_gap_invariant (df : List Candle) (sym tf : String)
    (params : TradingParameters) (p : Pattern) (hp : p ∈ detect df sym tf params) :
    p.gap_bottom < p.gap_top ∧ p.gap_bottom < p.entry_price ∧ p.entry_price < p.gap_top ∧
    p.entry_price = (p.gap_bottom + p.gap_top) / 2 := by
  unfold detect at hp
  split at hp
  · simp at hp
  · obtain ⟨i, _, hmem⟩ := List.mem_flatMap.mp hp
    exact detectAt_gap_invariant hmem

/-- C4 (witness): the pattern detected on `df3` satisfies the invariant. -/
theorem detect_gap_invariant_witness :
    pat3 ∈ detect df3 "BTCUSDT" "1h" default_parameters ∧
    (pat3.gap_bottom < pat3.gap_top ∧ pat3.gap_bottom < pat3.entry_price ∧
     pat3.entry_price < pat3.gap_top ∧
     pat3.entry_price = (pat3.gap_bottom + pat3.gap_top) / 2) :=
  ⟨by rw [detect_df3_eq]; exact List.mem_singleton.mpr rfl,
   detect_gap_invariant df3 "BTCUSDT" "1h" default_parameters pat3
     (by rw [detect_df3_eq]; exact List.mem_singleton.mpr rfl)⟩

/-- C5: with a timeframe-level override setting `min_gap_percent` to 0.2
for timeframe T and a symbol+timeframe override setting it to 0.3 for
(S, T), resolving with symbol S and timeframe T yields 0.3 — the
symbol+timeframe layer is applied last; and a merge layer only overrides
the fields it specifies (an absent `max_age_candles` falls through). -/
theorem override_precedence (ov : Overrides) (defaults : TradingParameters) (S T : String)
    (tff : String → Option OverrideDoc) (tdoc : OverrideDoc) (tfo : FVGOverride)
    (symf : String → Option SymbolConfig) (cfg : SymbolConfig)
    (ctf : String → Option OverrideDoc) (doc : OverrideDoc) (fo : FVGOverride)
    (htf : ov.timeframes = some tff) (htT : tff T = some tdoc)
    (htfvg : tdoc.fvg = some tfo) (htmin : tfo.min_gap_percent = some (1 / 5))
    (hs : ov.symbols = some symf) (hcfg : symf S = some cfg)
    (hctf : cfg.timeframes = some ctf) (hdoc : ctf T = some doc)
    (hfvg : doc.fvg = some fo) (hmin : fo.min_gap_percent = some (3 / 10)) :
    (get_parameters ov defaults (some S) (some T)).fvg.min_gap_percent = 3 / 10
    ∧ ∀ (base : TradingParameters) (d : OverrideDoc) (f2 : FVGOverride),
        d.fvg = some f2 → f2.max_age_candles = none →
        (merge_parameters base d).fvg.max_age_candles = base.fvg.max_age_candles := by
  constructor
  · unfold get_parameters
    simp only [htf, htT, hs, hcfg, hctf, hdoc]
    cases cfg.sym_default <;> simp [merge_parameters, hfvg, hmin]
  · intro base d f2 h1 h2
    simp [merge_parameters, h1, h2]

/-- C5 (witness): the concrete store `ov_ex` realises the scenario. -/
theorem override_precedence_witness :
    (get_parameters ov_ex default_parameters (some "BTCUSDT") (some "1h")).fvg.min_gap_percent
      = 3 / 10
    ∧ ∀ (base : TradingParameters) (d : OverrideDoc) (f2 : FVGOverride),
        d.fvg = some f2 → f2.max_age_candles = none →
        (merge_parameters base d).fvg.max_age_candles = base.fvg.max_age_candles :=
  override_precedence ov_ex default_parameters "BTCUSDT" "1h"
    (fun t => if t = "1h" then some tf_doc_ex else none) tf_doc_ex
    { min_gap_percent := some (1 / 5) }
    (fun s => if s = "BTCUSDT" then some sym_cfg_ex else none) sym_cfg_ex
    (fun t => if t = "1h" then some st_doc_ex else none) st_doc_ex
    { min_gap_percent := some (3 / 10) }
    rfl (by simp [tf_doc_ex]) rfl rfl rfl (by simp [sym_cfg_ex]) rfl (by simp [st_doc_ex])
    rfl rfl

/-- C6: parameter resolution is pure — the state-passing form returns the
override store unchanged, and resolving again from the returned store
gives an identical `TradingParameters` value. -/
theorem get_parameters_pure (st : Overrides) (symbol timeframe : Option String) :
    (get_parameters_st st symbol timeframe).2 = st ∧
    (get_parameters_st ((get_parameters_st st symbol timeframe).2) symbol timeframe).1
      = (get_parameters_st st symbol timeframe).1 :=
  ⟨rfl, rfl⟩

/-- C7: the claim quantifies over every open simulated trade and states
the long exit rule (stop on low ≤ stop, else target on high ≥ target) and
its short mirror.  But `_enter_trade` stores `pattern.direction` verbatim
(engine.py:195), so every trade the simulator opens is `'bullish'` or
`'bearish'` — never `'long'`/`'short'` — and `_check_exit`'s
`trade['direction'] == 'long'` test (engine.py:211) sends every trade,
including the bullish ones the engine's own comment calls "Enter long
trade", through the ELSE (short) branch.  Concretely: a trade opened from
the bullish pattern `tf_p1` (entry 101, stop 99, target 105) on a candle
with low 100 and high 104 touches neither level under the claimed long
rules, yet the code closes it at the stop because `high 104 ≥ stop 99` in
the short branch. -/
theorem bullish_trade_takes_short_exit_branch :
    (enter_trade (PFloat.val 10000) tf_p1 tf_p1.entry_price 0).direction = "bullish" ∧
    (enter_trade (PFloat.val 10000) tf_p1 tf_p1.entry_price 0).direction ≠ "long" ∧
    (enter_trade (PFloat.val 10000) tf_p1 tf_p1.entry_price 0).direction ≠ "short" ∧
    check_exit (enter_trade (PFloat.val 10000) tf_p1 tf_p1.entry_price 0) candle_c7
      = some (PFloat.val 99, "stop_loss") ∧
    ¬(candle_c7.low ≤ 99) ∧ ¬((105 : ℚ) ≤ candle_c7.high) := by
  refine ⟨rfl, by decide, by decide, ?_, by norm_num [candle_c7], by norm_num [candle_c7]⟩
  norm_num [check_exit, enter_trade, tf_p1, candle_c7, PFloat.pymin]
  exact fun h => absurd h (by decide)

/-- C8: with exactly 3 timeframes each holding a fresh bullish pattern and
a minimum confluence of 3, `analyze` emits exactly one long signal whose
confluence count is 3 and whose entry is the arithmetic mean of the three
entries; with only 2 qualifying timeframes against threshold 3 it emits
none.  (The `stop ≠ entry` hypotheses exclude the degenerate primary
pattern on which the source's risk/reward division raises.) -/
theorem confluence_threshold (sym t1 t2 t3 : String) (p1 p2 p3 : Pattern)
    (h12 : t1 ≠ t2) (h13 : t1 ≠ t3) (h23 : t2 ≠ t3)
    (hd1 : p1.direction = "bullish") (hd2 : p2.direction = "bullish")
    (hd3 : p3.direction = "bullish")
    (ht1 : p1.timeframe = t1) (ht2 : p2.timeframe = t2) (ht3 : p3.timeframe = t3)
    (hz1 : p1.stop_loss ≠ PFloat.val p1.entry_price)
    (hz2 : p2.stop_loss ≠ PFloat.val p2.entry_price)
    (hz3 : p3.stop_loss ≠ PFloat.val p3.entry_price) :
    (∃ s, analyze_confluence_core sym [(t1, [p1]), (t2, [p2]), (t3, [p3])] 3 = [s] ∧
       s.direction = "long" ∧ s.confluence_count = 3 ∧
       s.entry_price = (p1.entry_price + p2.entry_price + p3.entry_price) / 3) ∧
    analyze_confluence_core sym [(t1, [p1]), (t2, [p2])] 3 = [] := by
  have hf1 : List.filter (fun p => decide (p.direction = "bullish")) [p1] = [p1] := by
    simp [hd1]
  have hf2 : List.filter (fun p => decide (p.direction = "bullish")) [p2] = [p2] := by
    simp [hd2]
  have hf3 : List.filter (fun p => decide (p.direction = "bullish")) [p3] = [p3] := by
    simp [hd3]
  constructor
  · have hbear : find_confluence_signal sym [(t1, [p1]), (t2, [p2]), (t3, [p3])]
        "bearish" 3 = none := by
      unfold find_confluence_signal
      simp [hd1, hd2, hd3]
    have hmem : get_highest_timeframe [t1, t2, t3] ∈ [t1, t2, t3] :=
      ght_mem (by simp)
    have hbull : ∃ s, find_confluence_signal sym [(t1, [p1]), (t2, [p2]), (t3, [p3])]
        "bullish" 3 = some s ∧ s.direction = "long" ∧ s.confluence_count = 3 ∧
        s.entry_price = (p1.entry_price + p2.entry_price + p3.entry_price) / 3 := by
      unfold find_confluence_signal
      simp only [List.foldl_cons, List.foldl_nil, hf1, hf2, hf3]
      simp only [max_by_start, List.foldl_nil, List.nil_append, List.singleton_append,
        List.cons_append, List.length_cons, List.length_nil]
      norm_num
      rcases (by simpa using hmem) with h | h | h
      · have hfind : List.find?
            (fun p => decide (p.timeframe = get_highest_timeframe [t1, t2, t3]))
            [p1, p2, p3] = some p1 := by
          simp [List.find?, ht1, h]
        simp only [hfind]
        exact ⟨_, rfl, rfl, rfl, by push_cast; ring⟩
      · have hfind : List.find?
            (fun p => decide (p.timeframe = get_highest_timeframe [t1, t2, t3]))
            [p1, p2, p3] = some p2 := by
          simp [List.find?, ht1, ht2, h, h12]
        simp only [hfind]
        exact ⟨_, rfl, rfl, rfl, by push_cast; ring⟩
      · have hfind : List.find?
            (fun p => decide (p.timeframe = get_highest_timeframe [t1, t2, t3]))
            [p1, p2, p3] = some p3 := by
          simp [List.find?, ht1, ht2, ht3, h, h13, h23]
        simp only [hfind]
        exact ⟨_, rfl, rfl, rfl, by push_cast; ring⟩
    obtain ⟨s, hsig, hdir, hcnt, hent⟩ := hbull
    exact ⟨s, by simp [analyze_confluence_core, hsig, hbear], hdir, hcnt, hent⟩
  · have h2bull : find_confluence_signal sym [(t1, [p1]), (t2, [p2])] "bullish" 3 = none := by
      unfold find_confluence_signal
      simp only [List.foldl_cons, List.foldl_nil, hf1, hf2]
      norm_num
    have h2bear : find_confluence_signal sym [(t1, [p1]), (t2, [p2])] "bearish" 3 = none := by
      unfold find_confluence_signal
      simp [hd1, hd2]
    simp [analyze_confluence_core, h2bull, h2bear]

/-- C8 (witness): three concrete bullish patterns on 1h, 4h, 1d. -/
theorem confluence_threshold_witness :
    (∃ s, analyze_confluence_core "BTCUSDT"
        [("1h", [tf_p1]), ("4h", [tf_p2]), ("1d", [tf_p3])] 3 = [s] ∧
       s.direction = "long" ∧ s.confluence_count = 3 ∧
       s.entry_price = (tf_p1.entry_price + tf_p2.entry_price + tf_p3.entry_price) / 3) ∧
    analyze_confluence_core "BTCUSDT" [("1h", [tf_p1]), ("4h", [tf_p2])] 3 = [] :=
  confluence_threshold "BTCUSDT" "1h" "4h" "1d" tf_p1 tf_p2 tf_p3
    (by decide) (by decide) (by decide) rfl rfl rfl rfl rfl rfl
    (by simp only [tf_p1, ne_eq, PFloat.val.injEq]; norm_num)
    (by simp only [tf_p2, ne_eq, PFloat.val.injEq]; norm_num)
    (by simp only [tf_p3, ne_eq, PFloat.val.injEq]; norm_num)

/-- C9: entering on a pattern whose entry price equals its stop loss (with
nonnegative capital) yields a position size of exactly 0 — the guarded
division is skipped — and closing that trade at any exit `_check_exit` can
produce realizes zero P&L and leaves the capital unchanged (`entry ≠ 0`
keeps the source's own P&L division well defined). -/
theorem degenerate_risk_noop (c : ℚ) (hc : 0 ≤ c) (pat : Pattern)
    (he : pat.stop_loss = PFloat.val pat.entry_price) (hne : pat.entry_price ≠ 0)
    (tm tm2 : ℤ) (cd : Candle) (pr : PFloat) (r : String)
    (hex : check_exit (enter_trade (PFloat.val c) pat pat.entry_price tm) cd = some (pr, r)) :
    (enter_trade (PFloat.val c) pat pat.entry_price tm).position_size = PFloat.val 0 ∧
    (close_trade (PFloat.val c) (enter_trade (PFloat.val c) pat pat.entry_price tm)
        pr tm2 r).1 = PFloat.val c ∧
    (close_trade (PFloat.val c) (enter_trade (PFloat.val c) pat pat.entry_price tm)
        pr tm2 r).2.pnl = some (PFloat.val 0) := by
  have hmaxpos : ¬(c * (2 / 100) < 0) := by
    have : 0 ≤ c * (2 / 100) := by positivity
    linarith
  have hsize : (enter_trade (PFloat.val c) pat pat.entry_price tm).position_size
      = PFloat.val 0 := by
    unfold enter_trade
    simp [he, PFloat.pymin, hmaxpos]
  obtain ⟨x, rfl⟩ := check_exit_price_val hex
  have hentry : (enter_trade (PFloat.val c) pat pat.entry_price tm).entry_price
      = pat.entry_price := rfl
  refine ⟨hsize, ?_, ?_⟩ <;>
    · unfold close_trade
      split_ifs <;> simp [hsize, hentry, hne]

/-- C9 (witness): a concrete degenerate trade entered with capital 1000 and
stopped out on the next candle. -/
theorem degenerate_risk_noop_witness :
    (enter_trade (PFloat.val 1000) pat_deg pat_deg.entry_price 0).position_size = PFloat.val 0 ∧
    (close_trade (PFloat.val 1000) (enter_trade (PFloat.val 1000) pat_deg pat_deg.entry_price 0)
        (PFloat.val 100) 120 "stop_loss").1 = PFloat.val 1000 ∧
    (close_trade (PFloat.val 1000) (enter_trade (PFloat.val 1000) pat_deg pat_deg.entry_price 0)
        (PFloat.val 100) 120 "stop_loss").2.pnl = some (PFloat.val 0) :=
  degenerate_risk_noop 1000 (by norm_num) pat_deg rfl (by norm_num [pat_deg]) 0 120
    candle_deg (PFloat.val 100) "stop_loss"
    (by norm_num [check_exit, enter_trade, pat_deg, candle_deg, PFloat.pymin])

/-- C10: when every candle satisfies `low ≤ high`, the bullish condition
`high[i-2] < low[i]` and the bearish condition `low[i-2] > high[i]` are
mutually exclusive, so one detection step emits at most one pattern. -/
theorem detectAt_at_most_one (df : List Candle) (sym tf : String)
    (params : TradingParameters) (i : ℕ)
    (hlh : ∀ c ∈ df, c.low ≤ c.high) :
    (detectAt df sym tf params i).length ≤ 1 := by
  unfold detectAt
  cases h0 : df.get? (i - 2) with
  | none => simp
  | some c0 =>
    cases h1 : df.get? (i - 1) with
    | none => simp
    | some c1 =>
      cases h2 : df.get? i with
      | none => simp
      | some c2 =>
        cases hb : detect_bullish_fvg c0 c1 c2 c2.timestamp sym tf (atr df i) params with
        | none =>
          cases he : detect_bearish_fvg c0 c1 c2 c2.timestamp sym tf (atr df i) params with
          | none => simp [hb, he]
          | some pe => simp [hb, he]
        | some pb =>
          cases he : detect_bearish_fvg c0 c1 c2 c2.timestamp sym tf (atr df i) params with
          | none => simp [hb, he]
          | some pe =>
            exfalso
            have hbf := bullish_some_facts hb
            have hef := bearish_some_facts he
            have hc0 : c0 ∈ df := List.get?_mem h0
            have hc2 : c2 ∈ df := List.get?_mem h2
            have l0 := hlh c0 hc0
            have l2 := hlh c2 hc2
            have := hbf.2.2.1
            have := hef.2.2.1
            linarith

/-- C10 (witness): on `df3` (whose candles all satisfy low ≤ high) the
step at index 2 emits at most one pattern. -/
theorem detectAt_at_most_one_witness :
    (∀ c ∈ df3, c.low ≤ c.high) ∧
    (detectAt df3 "ETHUSDT" "4h" default_parameters 2).length ≤ 1 :=
  ⟨by norm_num [df3], detectAt_at_most_one df3 "ETHUSDT" "4h" default_parameters 2
    (by norm_num [df3])⟩

end CFS
